import Mathlib

/-!
Verification of the contact-center-insights pipeline
(`contact_center_insights_for_nvidia.ipynb`).

The notebook merges two per-channel NVIDIA Riva recognition results into a
single time-ordered transcript and drives two schema-constrained LLM calls
(pydantic models `Entities` and `Evaluation`), composing everything into a
`Result` record.

Embedding notes:
* Riva's `offline_recognize` response is a list of recognition results, each
  carrying ranked `alternatives`; an alternative carries a `transcript`
  string and a list of timed `words`, whose `start_time` is an integer
  millisecond offset.  We embed exactly the fields the notebook reads.
* `extract_transcript` iterates over all alternatives of all results and
  reads `alternative.words[0].start_time`; indexing an empty word list
  raises `IndexError`, modelled as `none`.
* `combine_and_format_results` concatenates the two per-channel triple lists
  and sorts with Python's stable `list.sort(key=lambda x: x['start_time'])`,
  modelled by the stable `List.mergeSort` on the same key.  Each sorted
  triple becomes an `Utterance` with `time = int(float(start_time))` (the
  identity on Riva's integer offsets) and `spoken_words = transcript.strip()`.
* The pydantic models carry no range validators: `ScoreMetric.value` and
  `BoolMetric.value` are plain `int` fields (the 1..10 resp. 0/1 ranges
  appear only in `Field(description=...)`), and `Entities` has no validator
  relating `agent_speaker` and `customer_speaker`.  Validation of a JSON
  payload is embedded as a parser over a JSON value type: a required field
  that is absent or of the wrong type makes the parse fail (`none`); extra
  fields are ignored; `Optional[str]` fields accept `null`.
-/

/-- One timed word of a Riva recognition alternative (`WordInfo`); the
notebook only reads `start_time`, an integer millisecond offset. -/
structure WordInfo where
  word : String
  start_time : Int
  deriving Repr, DecidableEq

/-- One ranked candidate transcription of a recognized segment
(`SpeechRecognitionAlternative`): full text plus per-word timing. -/
structure SpeechRecognitionAlternative where
  transcript : String
  words : List WordInfo
  deriving Repr, DecidableEq

/-- One recognized segment of a Riva response (`SpeechRecognitionResult`),
carrying its ranked alternatives. -/
structure SpeechRecognitionResult where
  alternatives : List SpeechRecognitionAlternative
  deriving Repr, DecidableEq

/-- The dict `{'transcript': ..., 'start_time': ..., 'speaker': ...}` built
by `extract_transcript` for each alternative. -/
structure TranscriptTriple where
  transcript : String
  start_time : Int
  speaker : Int
  deriving Repr, DecidableEq

/-- `Utterance` pydantic model: start time (ms), speaker id, spoken words. -/
structure Utterance where
  time : Int
  speaker : Int
  spoken_words : String
  deriving Repr, DecidableEq

/-- `Transcript` pydantic model: utterance sequence plus call duration (ms). -/
structure Transcript where
  utterances : List Utterance
  call_duration : Int
  deriving Repr, DecidableEq

/-- The body of the inner loop of `extract_transcript`: one alternative
yields one triple, reading `alternative.words[0].start_time`; an empty word
list raises `IndexError`, modelled as `none`. -/
def tripleOfAlternative (speaker_label : Int)
    (alternative : SpeechRecognitionAlternative) : Option TranscriptTriple :=
  match alternative.words with
  | [] => none
  | w :: _ =>
    some { transcript := alternative.transcript
           start_time := w.start_time
           speaker := speaker_label }

/-- The nested `for result in results: for alternative in result.alternatives`
loop of `extract_transcript`, run over the flattened alternative list; the
first alternative with no timed words aborts the whole extraction. -/
def extract_alternatives (speaker_label : Int) :
    List SpeechRecognitionAlternative → Option (List TranscriptTriple)
  | [] => some []
  | a :: rest =>
    match tripleOfAlternative speaker_label a, extract_alternatives speaker_label rest with
    | some t, some ts => some (t :: ts)
    | _, _ => none

/-- `extract_transcript(results, speaker_label)`: one triple per alternative
of every result, in iteration order. -/
def extract_transcript (results : List SpeechRecognitionResult)
    (speaker_label : Int) : Option (List TranscriptTriple) :=
  extract_alternatives speaker_label
    ((results.map (fun r => r.alternatives)).flatten)

/-- The sort key comparison of `combined_results.sort(key=lambda x: x['start_time'])`. -/
def tripleLe (a b : TranscriptTriple) : Bool :=
  decide (a.start_time ≤ b.start_time)

/-- The formatting step of `combine_and_format_results`:
`Utterance(time=float(start_time), speaker=speaker, spoken_words=transcript.strip())`.
On Riva's integer millisecond offsets the `float`/`int` round trip is the
identity; `.strip()` is `String.trim`. -/
def formatTriple (t : TranscriptTriple) : Utterance :=
  { time := t.start_time
    speaker := t.speaker
    spoken_words := t.transcript.trim }

/-- The fusion core of `combine_and_format_results`, applied to the two
already-normalized per-channel triple lists: concatenate, stable-sort by
`start_time`, format each triple as an `Utterance`. -/
def format_results (left right : List TranscriptTriple) : List Utterance :=
  (((left ++ right).mergeSort tripleLe)).map formatTriple

/-- `combine_and_format_results(left_results, right_results)`: normalize each
channel (speaker labels 0 and 1), then merge and format. -/
def combine_and_format_results (left_results right_results : List SpeechRecognitionResult) :
    Option (List Utterance) :=
  match extract_transcript left_results 0, extract_transcript right_results 1 with
  | some l, some r => some (format_results l r)
  | _, _ => none

/-- The transcript-building cell:
`utterances = combine_and_format_results(...)`;
`transcript = Transcript(utterances=utterances, call_duration=duration)`.
The `Transcript` constructor performs no validation beyond field types. -/
def run_pipeline_transcript (left_results right_results : List SpeechRecognitionResult)
    (duration : Int) : Option Transcript :=
  (combine_and_format_results left_results right_results).map
    (fun utts => { utterances := utts, call_duration := duration })

/-- `Entities` pydantic model. `Optional[str]` fields are required but
nullable; no validator constrains the two speaker ids. -/
structure Entities where
  agent_name : Option String
  customer_name : Option String
  agent_speaker : Int
  customer_speaker : Int
  reason : Option String
  topic : String
  subtopic : String
  deriving Repr, DecidableEq

/-- `ScoreMetric` pydantic model: a plain `int` value (the 1..10 range is
only stated in the field description, never enforced) plus a justification. -/
structure ScoreMetric where
  value : Int
  justification : String
  deriving Repr, DecidableEq

/-- `BoolMetric` pydantic model: a plain `int` value (the 0/1 convention is
only stated in the field description, never enforced) plus a justification. -/
structure BoolMetric where
  value : Int
  justification : String
  deriving Repr, DecidableEq

/-- `StringMetric` pydantic model. -/
structure StringMetric where
  value : String
  justification : String
  deriving Repr, DecidableEq

/-- `Evaluation` pydantic model: thirteen required metric fields. -/
structure Evaluation where
  greeting : BoolMetric
  hold : BoolMetric
  ticket : BoolMetric
  listening : BoolMetric
  understanding : BoolMetric
  tone : BoolMetric
  proactivity : BoolMetric
  clarity : BoolMetric
  resolved : BoolMetric
  customer_sentiment : ScoreMetric
  escalation : BoolMetric
  agent_feedback : StringMetric
  escalation_reason : StringMetric
  deriving Repr, DecidableEq

/-- `Result` pydantic model: the terminal record written to disk. -/
structure Result where
  transcript : Transcript
  entities : Entities
  evaluation : Evaluation
  deriving Repr, DecidableEq

/-- JSON values as exchanged with the structured-output backend and the
result file; integer and string payloads are all the models need. -/
inductive Json where
  | null : Json
  | int : Int → Json
  | str : String → Json
  | arr : List Json → Json
  | obj : List (String × Json) → Json
  deriving Repr

/-- First-match field lookup in a JSON object body. -/
def lookupField : List (String × Json) → String → Option Json
  | [], _ => none
  | (k, v) :: rest, key => if k = key then some v else lookupField rest key

/-- Look a field up in a JSON value; only objects have fields. -/
def Json.get? : Json → String → Option Json
  | .obj fields, key => lookupField fields key
  | _, _ => none

/-- Pydantic validation of an `int` field: the payload must be an integer. -/
def parseIntField (j : Json) : Option Int :=
  match j with
  | .int n => some n
  | _ => none

/-- Pydantic validation of a `str` field. -/
def parseStrField (j : Json) : Option String :=
  match j with
  | .str s => some s
  | _ => none

/-- Pydantic validation of an `Optional[str]` field: `null` or a string. -/
def parseOptStrField (j : Json) : Option (Option String) :=
  match j with
  | .null => some none
  | .str s => some (some s)
  | _ => none

/-- `Utterance.model_validate`: all three fields required, typed as declared. -/
def Utterance.model_validate (j : Json) : Option Utterance := do
  let time ← j.get? "time" >>= parseIntField
  let speaker ← j.get? "speaker" >>= parseIntField
  let spoken_words ← j.get? "spoken_words" >>= parseStrField
  pure { time := time, speaker := speaker, spoken_words := spoken_words }

/-- Validate each element of the `utterances` array in order. -/
def parseUtteranceList : List Json → Option (List Utterance)
  | [] => some []
  | j :: rest =>
    match Utterance.model_validate j, parseUtteranceList rest with
    | some u, some us => some (u :: us)
    | _, _ => none

/-- `Transcript.model_validate`. -/
def Transcript.model_validate (j : Json) : Option Transcript := do
  let utterances ← j.get? "utterances" >>= fun v =>
    match v with
    | .arr items => parseUtteranceList items
    | _ => none
  let call_duration ← j.get? "call_duration" >>= parseIntField
  pure { utterances := utterances, call_duration := call_duration }

/-- `Entities.model_validate`: every field is required; the two speaker ids
are validated only as integers. -/
def Entities.model_validate (j : Json) : Option Entities := do
  let agent_name ← j.get? "agent_name" >>= parseOptStrField
  let customer_name ← j.get? "customer_name" >>= parseOptStrField
  let agent_speaker ← j.get? "agent_speaker" >>= parseIntField
  let customer_speaker ← j.get? "customer_speaker" >>= parseIntField
  let reason ← j.get? "reason" >>= parseOptStrField
  let topic ← j.get? "topic" >>= parseStrField
  let subtopic ← j.get? "subtopic" >>= parseStrField
  pure { agent_name := agent_name, customer_name := customer_name,
         agent_speaker := agent_speaker, customer_speaker := customer_speaker,
         reason := reason, topic := topic, subtopic := subtopic }

/-- `ScoreMetric.model_validate`: `value` is validated only as an integer. -/
def ScoreMetric.model_validate (j : Json) : Option ScoreMetric := do
  let value ← j.get? "value" >>= parseIntField
  let justification ← j.get? "justification" >>= parseStrField
  pure { value := value, justification := justification }

/-- `BoolMetric.model_validate`: `value` is validated only as an integer. -/
def BoolMetric.model_validate (j : Json) : Option BoolMetric := do
  let value ← j.get? "value" >>= parseIntField
  let justification ← j.get? "justification" >>= parseStrField
  pure { value := value, justification := justification }

/-- `StringMetric.model_validate`. -/
def StringMetric.model_validate (j : Json) : Option StringMetric := do
  let value ← j.get? "value" >>= parseStrField
  let justification ← j.get? "justification" >>= parseStrField
  pure { value := value, justification := justification }

/-- `Evaluation.model_validate`: all thirteen metric fields are required;
a missing field fails the whole validation, no default is substituted. -/
def Evaluation.model_validate (j : Json) : Option Evaluation := do
  let greeting ← j.get? "greeting" >>= BoolMetric.model_validate
  let hold ← j.get? "hold" >>= BoolMetric.model_validate
  let ticket ← j.get? "ticket" >>= BoolMetric.model_validate
  let listening ← j.get? "listening" >>= BoolMetric.model_validate
  let understanding ← j.get? "understanding" >>= BoolMetric.model_validate
  let tone ← j.get? "tone" >>= BoolMetric.model_validate
  let proactivity ← j.get? "proactivity" >>= BoolMetric.model_validate
  let clarity ← j.get? "clarity" >>= BoolMetric.model_validate
  let resolved ← j.get? "resolved" >>= BoolMetric.model_validate
  let customer_sentiment ← j.get? "customer_sentiment" >>= ScoreMetric.model_validate
  let escalation ← j.get? "escalation" >>= BoolMetric.model_validate
  let agent_feedback ← j.get? "agent_feedback" >>= StringMetric.model_validate
  let escalation_reason ← j.get? "escalation_reason" >>= StringMetric.model_validate
  pure { greeting := greeting, hold := hold, ticket := ticket,
         listening := listening, understanding := understanding, tone := tone,
         proactivity := proactivity, clarity := clarity, resolved := resolved,
         customer_sentiment := customer_sentiment, escalation := escalation,
         agent_feedback := agent_feedback, escalation_reason := escalation_reason }

/-- The thirteen required field names of `Evaluation`. -/
def evaluationRequiredFields : List String :=
  ["greeting", "hold", "ticket", "listening", "understanding", "tone",
   "proactivity", "clarity", "resolved", "customer_sentiment", "escalation",
   "agent_feedback", "escalation_reason"]

/-- `Result.model_validate`. -/
def Result.model_validate (j : Json) : Option Result := do
  let transcript ← j.get? "transcript" >>= Transcript.model_validate
  let entities ← j.get? "entities" >>= Entities.model_validate
  let evaluation ← j.get? "evaluation" >>= Evaluation.model_validate
  pure { transcript := transcript, entities := entities, evaluation := evaluation }

/-- Serialization of an `Optional[str]` field: `None` becomes `null`. -/
def optStrJson : Option String → Json
  | none => Json.null
  | some s => Json.str s

/-- `Utterance` as serialized by `model_dump_json`. -/
def Utterance.model_dump (u : Utterance) : Json :=
  .obj [("time", .int u.time), ("speaker", .int u.speaker),
        ("spoken_words", .str u.spoken_words)]

/-- `Transcript` as serialized by `model_dump_json`. -/
def Transcript.model_dump (t : Transcript) : Json :=
  .obj [("utterances", .arr (t.utterances.map Utterance.model_dump)),
        ("call_duration", .int t.call_duration)]

/-- `Entities` as serialized by `model_dump_json`; `None` fields are emitted
as `null`, not omitted. -/
def Entities.model_dump (e : Entities) : Json :=
  .obj [("agent_name", optStrJson e.agent_name),
        ("customer_name", optStrJson e.customer_name),
        ("agent_speaker", .int e.agent_speaker),
        ("customer_speaker", .int e.customer_speaker),
        ("reason", optStrJson e.reason),
        ("topic", .str e.topic),
        ("subtopic", .str e.subtopic)]

/-- `ScoreMetric` as serialized by `model_dump_json`; the integer value is
emitted as a JSON integer. -/
def ScoreMetric.model_dump (m : ScoreMetric) : Json :=
  .obj [("value", .int m.value), ("justification", .str m.justification)]

/-- `BoolMetric` as serialized by `model_dump_json`. -/
def BoolMetric.model_dump (m : BoolMetric) : Json :=
  .obj [("value", .int m.value), ("justification", .str m.justification)]

/-- `StringMetric` as serialized by `model_dump_json`. -/
def StringMetric.model_dump (m : StringMetric) : Json :=
  .obj [("value", .str m.value), ("justification", .str m.justification)]

/-- `Evaluation` as serialized by `model_dump_json`. -/
def Evaluation.model_dump (e : Evaluation) : Json :=
  .obj [("greeting", e.greeting.model_dump),
        ("hold", e.hold.model_dump),
        ("ticket", e.ticket.model_dump),
        ("listening", e.listening.model_dump),
        ("understanding", e.understanding.model_dump),
        ("tone", e.tone.model_dump),
        ("proactivity", e.proactivity.model_dump),
        ("clarity", e.clarity.model_dump),
        ("resolved", e.resolved.model_dump),
        ("customer_sentiment", e.customer_sentiment.model_dump),
        ("escalation", e.escalation.model_dump),
        ("agent_feedback", e.agent_feedback.model_dump),
        ("escalation_reason", e.escalation_reason.model_dump)]

/-- `Result` as serialized by `model_dump_json` when written to
`results/<audio>.json`. -/
def Result.model_dump (r : Result) : Json :=
  .obj [("transcript", r.transcript.model_dump),
        ("entities", r.entities.model_dump),
        ("evaluation", r.evaluation.model_dump)]

/-! Helper lemmas shared by the claim theorems. -/

theorem tripleLe_trans :
    ∀ a b c, tripleLe a b = true → tripleLe b c = true → tripleLe a c = true := by
  intro a b c hab hbc
  simp only [tripleLe, decide_eq_true_eq] at *
  omega

theorem tripleLe_total : ∀ a b, (tripleLe a b || tripleLe b a) = true := by
  intro a b
  simp only [tripleLe, Bool.or_eq_true, decide_eq_true_eq]
  omega

theorem bind_some_elim {α β : Type} {x : Option α} {f : α → Option β} {b : β}
    (h : (x >>= f) = some b) : ∃ a, x = some a ∧ f a = some b := by
  cases x with
  | none => cases h
  | some a => exact ⟨a, rfl, h⟩

theorem extract_alternatives_forall2 {label : Int} :
    ∀ {alts : List SpeechRecognitionAlternative} {ts : List TranscriptTriple},
    extract_alternatives label alts = some ts →
    List.Forall₂ (fun a t => tripleOfAlternative label a = some t) alts ts := by
  intro alts
  induction alts with
  | nil =>
    intro ts h
    simp [extract_alternatives] at h
    subst h
    exact List.Forall₂.nil
  | cons a rest ih =>
    intro ts h
    simp only [extract_alternatives] at h
    cases h1 : tripleOfAlternative label a with
    | none => rw [h1] at h; cases h
    | some t =>
      rw [h1] at h
      cases h2 : extract_alternatives label rest with
      | none => rw [h2] at h; cases h
      | some ts' =>
        rw [h2] at h
        cases h
        exact List.Forall₂.cons h1 (ih h2)

theorem extract_alternatives_none {label : Int} {alts : List SpeechRecognitionAlternative}
    {a : SpeechRecognitionAlternative} (ha : a ∈ alts) (hw : a.words = []) :
    extract_alternatives label alts = none := by
  induction alts with
  | nil => cases ha
  | cons b rest ih =>
    rcases List.mem_cons.mp ha with h | h
    · subst h
      simp [extract_alternatives, tripleOfAlternative, hw]
    · simp only [extract_alternatives, ih h]
      cases tripleOfAlternative label b <;> rfl

theorem forall2_mem_right {α β : Type} {P : α → β → Prop} :
    ∀ {l₁ : List α} {l₂ : List β}, List.Forall₂ P l₁ l₂ → ∀ {b}, b ∈ l₂ → ∃ a ∈ l₁, P a b := by
  intro l₁ l₂ h
  induction h with
  | nil => intro b hb; cases hb
  | cons h₁ _ ih =>
    intro b hb
    rcases List.mem_cons.mp hb with rfl | hb'
    · exact ⟨_, List.mem_cons_self _ _, h₁⟩
    · obtain ⟨a, ha, hp⟩ := ih hb'
      exact ⟨a, List.mem_cons_of_mem _ ha, hp⟩

theorem evaluation_validate_fields {j : Json} {e : Evaluation}
    (h : Evaluation.model_validate j = some e) :
    ∀ f ∈ evaluationRequiredFields, (j.get? f).isSome := by
  unfold Evaluation.model_validate at h
  obtain ⟨g1, h1, h⟩ := bind_some_elim h
  obtain ⟨j1, hj1, -⟩ := bind_some_elim h1
  obtain ⟨g2, h2, h⟩ := bind_some_elim h
  obtain ⟨j2, hj2, -⟩ := bind_some_elim h2
  obtain ⟨g3, h3, h⟩ := bind_some_elim h
  obtain ⟨j3, hj3, -⟩ := bind_some_elim h3
  obtain ⟨g4, h4, h⟩ := bind_some_elim h
  obtain ⟨j4, hj4, -⟩ := bind_some_elim h4
  obtain ⟨g5, h5, h⟩ := bind_some_elim h
  obtain ⟨j5, hj5, -⟩ := bind_some_elim h5
  obtain ⟨g6, h6, h⟩ := bind_some_elim h
  obtain ⟨j6, hj6, -⟩ := bind_some_elim h6
  obtain ⟨g7, h7, h⟩ := bind_some_elim h
  obtain ⟨j7, hj7, -⟩ := bind_some_elim h7
  obtain ⟨g8, h8, h⟩ := bind_some_elim h
  obtain ⟨j8, hj8, -⟩ := bind_some_elim h8
  obtain ⟨g9, h9, h⟩ := bind_some_elim h
  obtain ⟨j9, hj9, -⟩ := bind_some_elim h9
  obtain ⟨g10, h10, h⟩ := bind_some_elim h
  obtain ⟨j10, hj10, -⟩ := bind_some_elim h10
  obtain ⟨g11, h11, h⟩ := bind_some_elim h
  obtain ⟨j11, hj11, -⟩ := bind_some_elim h11
  obtain ⟨g12, h12, h⟩ := bind_some_elim h
  obtain ⟨j12, hj12, -⟩ := bind_some_elim h12
  obtain ⟨g13, h13, h⟩ := bind_some_elim h
  obtain ⟨j13, hj13, -⟩ := bind_some_elim h13
  intro f hf
  simp only [evaluationRequiredFields, List.mem_cons, List.not_mem_nil, or_false] at hf
  rcases hf with rfl | rfl | rfl | rfl | rfl | rfl | rfl | rfl | rfl | rfl | rfl | rfl | rfl <;>
    simp [hj1, hj2, hj3, hj4, hj5, hj6, hj7, hj8, hj9, hj10, hj11, hj12, hj13]

theorem utterance_roundtrip (u : Utterance) :
    Utterance.model_validate u.model_dump = some u := by
  cases u; rfl

theorem parseUtteranceList_dump (us : List Utterance) :
    parseUtteranceList (us.map Utterance.model_dump) = some us := by
  induction us with
  | nil => rfl
  | cons u rest ih => simp [List.map, parseUtteranceList, utterance_roundtrip u, ih]

theorem transcript_roundtrip (t : Transcript) :
    Transcript.model_validate t.model_dump = some t := by
  cases t with
  | mk us d =>
    simp [Transcript.model_dump, Transcript.model_validate, Json.get?, lookupField,
      parseUtteranceList_dump, parseIntField]

theorem entities_roundtrip (e : Entities) :
    Entities.model_validate e.model_dump = some e := by
  cases e with
  | mk a b c d f g h => cases a <;> cases b <;> cases f <;> rfl

theorem evaluation_roundtrip (e : Evaluation) :
    Evaluation.model_validate e.model_dump = some e := by
  cases e; rfl

/-! Claim theorems. -/

/-- C1: the claim says an `Evaluation` payload with `customer_sentiment.value`
outside `[1,10]` (or a `BoolMetric` value outside `{0,1}`) is rejected by
schema validation.  The pydantic models declare no `ge`/`le` constraints (the
ranges appear only in `Field(description=...)`), so validation accepts a
payload with `customer_sentiment.value = 11` and `greeting.value = 2`: the
parse succeeds instead of failing. -/
theorem evaluation_accepts_out_of_range_values :
    Evaluation.model_validate (Json.obj
      [("greeting", .obj [("value", .int 2), ("justification", .str "jg")]),
       ("hold", .obj [("value", .int 0), ("justification", .str "jh")]),
       ("ticket", .obj [("value", .int 1), ("justification", .str "jt")]),
       ("listening", .obj [("value", .int 1), ("justification", .str "jl")]),
       ("understanding", .obj [("value", .int 1), ("justification", .str "ju")]),
       ("tone", .obj [("value", .int 1), ("justification", .str "jo")]),
       ("proactivity", .obj [("value", .int 0), ("justification", .str "jp")]),
       ("clarity", .obj [("value", .int 1), ("justification", .str "jc")]),
       ("resolved", .obj [("value", .int 1), ("justification", .str "jr")]),
       ("customer_sentiment", .obj [("value", .int 11), ("justification", .str "js")]),
       ("escalation", .obj [("value", .int 0), ("justification", .str "je")]),
       ("agent_feedback", .obj [("value", .str "good"), ("justification", .str "jf")]),
       ("escalation_reason", .obj [("value", .str "none"), ("justification", .str "jn")])]) =
      some { greeting := ⟨2, "jg"⟩, hold := ⟨0, "jh"⟩, ticket := ⟨1, "jt"⟩,
             listening := ⟨1, "jl"⟩, understanding := ⟨1, "ju"⟩, tone := ⟨1, "jo"⟩,
             proactivity := ⟨0, "jp"⟩, clarity := ⟨1, "jc"⟩, resolved := ⟨1, "jr"⟩,
             customer_sentiment := ⟨11, "js"⟩, escalation := ⟨0, "je"⟩,
             agent_feedback := ⟨"good", "jf"⟩, escalation_reason := ⟨"none", "jn"⟩ } := rfl

/-- C2 (counterexample): the claim says the normalizer emits exactly one
triple per segment, using only the top-ranked alternative.  On a single
segment carrying two alternatives, `extract_transcript` emits two triples,
the second one from the second-ranked alternative. -/
theorem extract_transcript_two_alternatives_counterexample :
    extract_transcript
        [⟨[⟨"alt one", [⟨"alt", 100⟩]⟩, ⟨"alt two", [⟨"alt", 100⟩]⟩]⟩] 0 =
      some [⟨"alt one", 100, 0⟩, ⟨"alt two", 100, 0⟩] ∧
    ([⟨"alt one", 100, 0⟩, ⟨"alt two", 100, 0⟩] : List TranscriptTriple).length ≠
      ([⟨[⟨"alt one", [⟨"alt", 100⟩]⟩, ⟨"alt two", [⟨"alt", 100⟩]⟩]⟩] :
        List SpeechRecognitionResult).length :=
  ⟨rfl, by decide⟩

/-- C2 (amended): when normalization succeeds, `extract_transcript` emits
exactly one triple per *alternative* of every segment, in iteration order:
each triple carries that alternative's transcript, the channel's speaker
label, and the start offset of the alternative's first timed word.  (With
the notebook's `max_alternatives=1` recognition config this coincides with
one triple per segment.) -/
theorem extract_transcript_one_triple_per_alternative
    (results : List SpeechRecognitionResult) (label : Int)
    (ts : List TranscriptTriple) (h : extract_transcript results label = some ts) :
    List.Forall₂ (fun (a : SpeechRecognitionAlternative) (t : TranscriptTriple) =>
        a.words ≠ [] ∧ t.transcript = a.transcript ∧ t.speaker = label ∧
        ∀ w ∈ a.words.head?, t.start_time = w.start_time)
      ((results.map (fun r => r.alternatives)).flatten) ts := by
  refine (extract_alternatives_forall2 h).imp ?_
  intro a t hat
  cases hw : a.words with
  | nil => simp [tripleOfAlternative, hw] at hat
  | cons w rest =>
    simp only [tripleOfAlternative, hw] at hat
    cases hat.symm
    simp [hw]

/-- C2 (witness): the amended theorem applied to a one-segment,
one-alternative channel result. -/
theorem extract_transcript_one_triple_per_alternative_witness :
    List.Forall₂ (fun (a : SpeechRecognitionAlternative) (t : TranscriptTriple) =>
        a.words ≠ [] ∧ t.transcript = a.transcript ∧ t.speaker = 0 ∧
        ∀ w ∈ a.words.head?, t.start_time = w.start_time)
      ((([⟨[⟨"hi", [⟨"hi", 500⟩]⟩]⟩] : List SpeechRecognitionResult).map
          (fun r => r.alternatives)).flatten)
      [⟨"hi", 500, 0⟩] :=
  extract_transcript_one_triple_per_alternative
    [⟨[⟨"hi", [⟨"hi", 500⟩]⟩]⟩] 0 [⟨"hi", 500, 0⟩] rfl

/-- C3 (counterexample): the claim says a segment with zero alternatives
makes normalization fail and is never silently dropped.  In fact the inner
loop body never runs for such a segment: normalization succeeds and the
segment contributes nothing to the output. -/
theorem extract_transcript_drops_empty_segment :
    extract_transcript [⟨[]⟩, ⟨[⟨"hi", [⟨"hi", 500⟩]⟩]⟩] 0 = some [⟨"hi", 500, 0⟩] := rfl

/-- C3 (amended): a segment with zero alternatives is silently dropped —
channels consisting only of such segments normalize to the empty triple
list with no error — while an alternative with zero timed words does make
normalization fail (`alternative.words[0]` raises `IndexError`, modelled as
`none`); only the zero-words half of the claim holds. -/
theorem extract_transcript_empty_cases
    (segs₁ segs₂ : List SpeechRecognitionResult) (label₁ label₂ : Int)
    (h₁ : ∀ s ∈ segs₁, s.alternatives = [])
    (h₂ : ∃ s ∈ segs₂, ∃ a ∈ s.alternatives, a.words = []) :
    extract_transcript segs₁ label₁ = some [] ∧ extract_transcript segs₂ label₂ = none := by
  constructor
  · unfold extract_transcript
    have hflat : (segs₁.map (fun r => r.alternatives)).flatten = [] := by
      rw [List.flatten_eq_nil_iff]
      intro l hl
      obtain ⟨s, hs, rfl⟩ := List.mem_map.mp hl
      exact h₁ s hs
    rw [hflat]
    rfl
  · obtain ⟨s, hs, a, ha, hw⟩ := h₂
    unfold extract_transcript
    exact extract_alternatives_none
      (List.mem_flatten.mpr ⟨s.alternatives, List.mem_map.mpr ⟨s, hs, rfl⟩, ha⟩) hw

/-- C3 (witness): the amended theorem applied to a channel with one
zero-alternative segment and a channel with one zero-words alternative. -/
theorem extract_transcript_empty_cases_witness :
    extract_transcript [⟨[]⟩] 0 = some [] ∧
    extract_transcript [⟨[⟨"x", []⟩]⟩] 1 = none :=
  extract_transcript_empty_cases [⟨[]⟩] [⟨[⟨"x", []⟩]⟩] 0 1
    (by decide) ⟨⟨[⟨"x", []⟩]⟩, by decide, ⟨"x", []⟩, by decide, rfl⟩

/-- C4: for every pair of per-channel normalized sequences, the merged
utterance sequence produced by the fusion step of
`combine_and_format_results` has monotonically non-decreasing `time`
values (on Riva's integer millisecond offsets the `int(float(...))` cast
is the identity, so sorting by `start_time` orders the cast times). -/
theorem fusion_time_nondecreasing (left right : List TranscriptTriple) :
    List.Pairwise (fun a b : Utterance => a.time ≤ b.time) (format_results left right) := by
  have h := List.sorted_mergeSort tripleLe_trans tripleLe_total (left ++ right)
  unfold format_results
  rw [List.pairwise_map]
  exact h.imp (by intro a b hab; simpa [tripleLe, formatTriple] using hab)

/-- C5: ties between the two channels break toward the left channel: if a
triple of the left sequence and a triple of the right sequence share a
`start_time`, the left one's formatted utterance precedes the right one's
in the merged output (the sort is stable on the concatenation
`left ++ right`); and the merge is a pure function, so two runs on
identical inputs yield identical outputs. -/
theorem fusion_stable_tie_break (left right : List TranscriptTriple)
    (a b : TranscriptTriple) (ha : a ∈ left) (hb : b ∈ right)
    (heq : a.start_time = b.start_time) :
    List.Sublist [formatTriple a, formatTriple b] (format_results left right) ∧
    format_results left right = format_results left right := by
  have hsub : List.Sublist ([a] ++ [b]) (left ++ right) :=
    List.Sublist.append (List.singleton_sublist.mpr ha) (List.singleton_sublist.mpr hb)
  have hpair : List.Pairwise (fun x y => tripleLe x y = true) [a, b] := by
    simp [tripleLe, heq]
  have hms := List.sublist_mergeSort tripleLe_trans tripleLe_total hpair hsub
  exact ⟨by simpa [format_results] using hms.map formatTriple, rfl⟩

/-- C5 (witness): the tie-break theorem applied to the spec's concrete
scenario with both channels speaking at offset 1000. -/
theorem fusion_stable_tie_break_witness :
    List.Sublist [formatTriple ⟨"Hello", 1000, 0⟩, formatTriple ⟨"Hi", 1000, 1⟩]
      (format_results [⟨"Hello", 1000, 0⟩] [⟨"Hi", 1000, 1⟩]) ∧
    format_results [⟨"Hello", 1000, 0⟩] [⟨"Hi", 1000, 1⟩] =
      format_results [⟨"Hello", 1000, 0⟩] [⟨"Hi", 1000, 1⟩] :=
  fusion_stable_tie_break [⟨"Hello", 1000, 0⟩] [⟨"Hi", 1000, 1⟩]
    ⟨"Hello", 1000, 0⟩ ⟨"Hi", 1000, 1⟩ (by decide) (by decide) rfl

/-- C6 (counterexample): the claim says every utterance's `time` is at most
the transcript's `call_duration`.  Neither `Transcript` nor the pipeline
checks this: a recognition result whose first word starts at 6000 ms
combined with a 5000 ms call duration yields a transcript violating the
claimed invariant. -/
theorem transcript_time_exceeds_duration_counterexample :
    ∃ t, run_pipeline_transcript [⟨[⟨"too late", [⟨"too", 6000⟩]⟩]⟩] [] 5000 = some t ∧
      ∃ u ∈ t.utterances, ¬ u.time ≤ t.call_duration := by
  refine ⟨_, rfl, formatTriple ⟨"too late", 6000, 0⟩, ?_, by decide⟩
  simp [format_results, List.mergeSort]

/-- C6 (amended): the invariant `time ≤ call_duration` holds only under the
assumption that every word offset reported by the recognition backend is at
most the supplied call duration — the code itself performs no such check.
Under that assumption, every utterance of the pipeline's transcript
satisfies it. -/
theorem transcript_time_le_duration_of_bounded
    (left_results right_results : List SpeechRecognitionResult) (duration : Int)
    (t : Transcript)
    (h : run_pipeline_transcript left_results right_results duration = some t)
    (hbound : ∀ res ∈ left_results ++ right_results, ∀ a ∈ res.alternatives,
      ∀ w ∈ a.words, w.start_time ≤ duration) :
    ∀ u ∈ t.utterances, u.time ≤ t.call_duration := by
  unfold run_pipeline_transcript combine_and_format_results at h
  cases hl : extract_transcript left_results 0 with
  | none => rw [hl] at h; cases h
  | some l =>
    cases hr : extract_transcript right_results 1 with
    | none => rw [hl, hr] at h; cases h
    | some r =>
      rw [hl, hr] at h
      cases h
      intro u hu
      simp only [format_results, List.mem_map] at hu
      obtain ⟨tr, htr, rfl⟩ := hu
      have htr' : tr ∈ l ++ r := (List.mergeSort_perm (l ++ r) tripleLe).mem_iff.mp htr
      have hsrc : ∃ res ∈ left_results ++ right_results, ∃ a ∈ res.alternatives,
          ∃ w ∈ a.words, tr.start_time = w.start_time := by
        rcases List.mem_append.mp htr' with hmem | hmem
        · obtain ⟨a, halt, hat⟩ := forall2_mem_right (extract_alternatives_forall2 hl) hmem
          obtain ⟨alts, hmm, ha⟩ := List.mem_flatten.mp halt
          obtain ⟨res, hres, rfl⟩ := List.mem_map.mp hmm
          cases hw : a.words with
          | nil => simp [tripleOfAlternative, hw] at hat
          | cons w ws =>
            simp only [tripleOfAlternative, hw] at hat
            cases hat.symm
            exact ⟨res, List.mem_append.mpr (Or.inl hres), a, ha, w, by simp [hw], rfl⟩
        · obtain ⟨a, halt, hat⟩ := forall2_mem_right (extract_alternatives_forall2 hr) hmem
          obtain ⟨alts, hmm, ha⟩ := List.mem_flatten.mp halt
          obtain ⟨res, hres, rfl⟩ := List.mem_map.mp hmm
          cases hw : a.words with
          | nil => simp [tripleOfAlternative, hw] at hat
          | cons w ws =>
            simp only [tripleOfAlternative, hw] at hat
            cases hat.symm
            exact ⟨res, List.mem_append.mpr (Or.inr hres), a, ha, w, by simp [hw], rfl⟩
      obtain ⟨res, hres, a, ha, w, hw, heq⟩ := hsrc
      simpa [formatTriple, heq] using hbound res hres a ha w hw

/-- C6 (witness): the amended theorem applied to the spec's concrete
scenario (offsets 1000 and 500, duration 5000), instantiated at the
right-channel utterance. -/
theorem transcript_time_le_duration_of_bounded_witness :
    (formatTriple ⟨"Hi", 500, 1⟩).time ≤
      (Transcript.mk (format_results [⟨"Hello", 1000, 0⟩] [⟨"Hi", 500, 1⟩]) 5000).call_duration :=
  transcript_time_le_duration_of_bounded
    [⟨[⟨"Hello", [⟨"Hello", 1000⟩]⟩]⟩] [⟨[⟨"Hi", [⟨"Hi", 500⟩]⟩]⟩] 5000
    (Transcript.mk (format_results [⟨"Hello", 1000, 0⟩] [⟨"Hi", 500, 1⟩]) 5000)
    rfl (by decide) (formatTriple ⟨"Hi", 500, 1⟩)
    (by simp [format_results, List.mergeSort, tripleLe])

/-- C7 (counterexample): the claim says an `Entities` payload whose
`agent_speaker` equals `customer_speaker` is rejected.  The model has no
validator relating the two fields: a payload with both speakers equal to 0
is accepted. -/
theorem entities_equal_speakers_accepted :
    Entities.model_validate (Json.obj
      [("agent_name", .str "Alex"), ("customer_name", .str "Casey"),
       ("agent_speaker", .int 0), ("customer_speaker", .int 0),
       ("reason", .null), ("topic", .str "billing"), ("subtopic", .str "refund")]) =
      some { agent_name := some "Alex", customer_name := some "Casey",
             agent_speaker := 0, customer_speaker := 0, reason := none,
             topic := "billing", subtopic := "refund" } := rfl

/-- C7 (amended): `Entities` validation constrains `agent_speaker` and
`customer_speaker` only to be integers; any pair — equal, distinct, or
outside `{0,1}` — is accepted.  Neither distinctness nor the `{0,1}` range
is enforced anywhere in the code (the prompt text merely asks the model for
ids 0 or 1). -/
theorem entities_speaker_fields_unconstrained (a c : Int) :
    Entities.model_validate (Json.obj
      [("agent_name", .str "Alex"), ("customer_name", .str "Casey"),
       ("agent_speaker", .int a), ("customer_speaker", .int c),
       ("reason", .null), ("topic", .str "billing"), ("subtopic", .str "refund")]) =
      some { agent_name := some "Alex", customer_name := some "Casey",
             agent_speaker := a, customer_speaker := c, reason := none,
             topic := "billing", subtopic := "refund" } := rfl

/-- C8: a generative response that omits any one of the thirteen required
`Evaluation` fields fails validation — the parse returns `none` rather than
filling a default. -/
theorem evaluation_missing_field_rejected (j : Json)
    (h : ∃ f ∈ evaluationRequiredFields, j.get? f = none) :
    Evaluation.model_validate j = none := by
  cases hv : Evaluation.model_validate j with
  | none => rfl
  | some e =>
    obtain ⟨f, hf, hnone⟩ := h
    have := evaluation_validate_fields hv f hf
    simp [hnone] at this

/-- C8 (witness): the empty JSON object omits every required field and is
rejected. -/
theorem evaluation_missing_field_rejected_witness :
    Evaluation.model_validate (Json.obj []) = none :=
  evaluation_missing_field_rejected (Json.obj []) ⟨"greeting", by simp [evaluationRequiredFields], rfl⟩

/-- C9: serializing a `Result` and validating the JSON back reproduces the
identical value — no field is lost, `None` fields survive as `null`, and
integer metric values stay integers. -/
theorem result_roundtrip (r : Result) :
    Result.model_validate r.model_dump = some r := by
  cases r with
  | mk t e ev =>
    simp [Result.model_dump, Result.model_validate, Json.get?, lookupField,
      transcript_roundtrip, entities_roundtrip, evaluation_roundtrip]

/-- C10: the merged utterance list has length equal to the sum of the two
per-channel input lengths and is a permutation of the formatted combined
inputs: each input triple appears exactly once as the `Utterance` carrying
its speaker label, its start time, and its whitespace-trimmed text; nothing
is dropped or duplicated. -/
theorem fusion_merge_is_permutation (left right : List TranscriptTriple) :
    (format_results left right).length = left.length + right.length ∧
    List.Perm (format_results left right) ((left ++ right).map formatTriple) := by
  have hperm : List.Perm (format_results left right) ((left ++ right).map formatTriple) :=
    (List.mergeSort_perm (left ++ right) tripleLe).map formatTriple
  refine ⟨?_, hperm⟩
  simpa using hperm.length_eq
